import Mathlib

/-!
Verification of the interactive session driver and batch runner of the
flox test harness (`tests/conftest.py`), via a shallow embedding.

Character data is modelled as `List Char` (abbreviated `Str`); the child
process's pseudo-terminal output is modelled as the bytes already read but
not yet consumed by a match (`buffer`) plus the bytes the child will
deliver before the pending expectation's timeout expires (`avail`),
followed by end-of-stream when `closed` is set.
-/

namespace FloxHarness

abbrev Str := List Char

/-- `DEFAULT_TIMEOUT = 3  # in seconds` from `tests/conftest.py`. -/
def DEFAULT_TIMEOUT : Nat := 3

/-- The driver's fixed prompt: `prompt = "$ "` in the spawn fixture. -/
def defaultPrompt : Str := "$ ".toList

/-- The shell's line-ending sequence expected in echoed output,
the literal `"\r\n"` of `send_command`. -/
def crlf : Str := "\r\n".toList

/-- Line terminator appended by `sendline`.
Modelled from the spec: the process-spawning facility writes the command
followed by a line terminator (`os.linesep`, a newline on POSIX). -/
def lineSep : Str := "\n".toList

/-- Index of the first occurrence of `needle` as a contiguous substring of
`hay`, or `none`.  This is the literal (non-pattern) search used by the
exact-substring expectations. -/
def findSub (needle : Str) : Str → Option Nat
  | [] => if needle.isPrefixOf ([] : Str) then some 0 else none
  | c :: t =>
    if needle.isPrefixOf (c :: t) then some 0
    else (findSub needle t).map (· + 1)

/-- The failure causes of a blocking expectation: the pattern did not
appear within the timeout (`timeout`, pexpect's `TIMEOUT`), or the child's
stream closed while the expectation was pending (`eof`, pexpect's `EOF`). -/
inductive ExpectErr where
  | timeout
  | eof
deriving DecidableEq, Repr

/-- One live interactive shell session.
`buffer` is output already read but not yet consumed by a match; `avail`
is the output the child will deliver before the pending expectation times
out; `closed` marks end-of-stream after `avail`; `before`/`after` mirror
the handle's record of the text preceding the last match and the matched
text itself; `inputWritten` is the transcript of bytes written to the
child's input stream. -/
structure Session where
  buffer : Str
  avail : Str
  closed : Bool
  before : Str
  after : Str
  inputWritten : Str
deriving DecidableEq, Repr

instance {ε α : Type} [DecidableEq ε] [DecidableEq α] :
    DecidableEq (Except ε α) := fun x y =>
  match x, y with
  | .ok a, .ok b =>
      if h : a = b then .isTrue (by rw [h])
      else .isFalse (fun hc => h (Except.ok.inj hc))
  | .ok _, .error _ => .isFalse (fun hc => Except.noConfusion hc)
  | .error _, .ok _ => .isFalse (fun hc => Except.noConfusion hc)
  | .error e, .error f =>
      if h : e = f then .isTrue (by rw [h])
      else .isFalse (fun hc => h (Except.error.inj hc))

/-- Modelled from the spec: the underlying buffered expect-by-pattern
interface of the process-spawning facility (an external collaborator),
for a literal-text expectation.  Output expectations are matched against
the strictly append-only, in-order byte stream: the unconsumed buffer
followed by newly arriving bytes.  On a match, everything up to and
including the match is consumed (the driver never looks behind the current
match position); on no match the call fails with `eof` when the stream has
closed and with `timeout` otherwise. -/
def rawExpectExact (s : Session) (needle : Str) : Except ExpectErr Session :=
  let data := s.buffer ++ s.avail
  match findSub needle data with
  | some i =>
      .ok { s with
              buffer := data.drop (i + needle.length),
              avail := [],
              before := data.take i,
              after := needle }
  | none => .error (if s.closed then .eof else .timeout)

/-- The project descriptor `FloxEnv` dataclass of `tests/conftest.py`:
`name`, `path`, `run_path`, `nixpkgs_rev`. -/
structure FloxEnv where
  name : Str
  path : Str
  run_path : Str
  nixpkgs_rev : Str
deriving DecidableEq, Repr

/-- `FloxEnv.__str__`: the human-readable description of the project
descriptor printed in the diagnostic dump. -/
def strFloxEnv (fe : FloxEnv) : Str :=
  "FLOX ENVIRONMENT:\n".toList ++
  "  name: ".toList ++ fe.name ++ "\n".toList ++
  "  path: ".toList ++ fe.path ++ "\n".toList ++
  "  run_path: ".toList ++ fe.run_path ++ "\n".toList ++
  "  nixpkgs_rev: ".toList ++ fe.nixpkgs_rev ++ "\n".toList

/-- Modelled from the spec: the string rendering of the session handle
(`str(shell)`, supplied by the external process-spawning facility), which
the spec requires to contain the full buffered transcript of the session
to date: the text consumed before the last match, the unconsumed buffer,
and the last matched text. -/
def strShell (s : Session) : Str :=
  "before: ".toList ++ s.before ++ "\n".toList ++
  "buffer: ".toList ++ s.buffer ++ "\n".toList ++
  "after: ".toList ++ s.after

/-- Split a string at newline characters (for the line-wise indentation of
the dump). -/
def splitLines : Str → List Str
  | [] => [[]]
  | c :: t =>
    if c = '\n' then [] :: splitLines t
    else
      match splitLines t with
      | [] => [[c]]
      | l :: ls => (c :: l) :: ls

/-- Python `str.join` semantics: concatenate the pieces with the separator
between consecutive pieces. -/
def pyStrJoin (sep : Str) : List Str → Str
  | [] => []
  | [x] => x
  | x :: y :: rest => x ++ sep ++ pyStrJoin sep (y :: rest)

/-- Modelled from the spec: `textwrap.indent(text, " " * 2)` (external
standard library), prefixing each line of the session rendering with two
spaces inside the dump. -/
def pyIndent (text : Str) : Str :=
  pyStrJoin "\n".toList (List.map (fun l => "  ".toList ++ l) (splitLines text))

/-- The diagnostic dump emitted by `new_expect` on failure, as the list of
printed lines: the banner, the indented session rendering, and the project
descriptor rendering. -/
def debugDump (s : Session) (fe : FloxEnv) : List Str :=
  [ List.replicate 80 '=',
    "= DEBUG HELP:".toList,
    List.replicate 80 '=',
    "EXPECT:".toList,
    pyIndent (strShell s),
    strFloxEnv fe,
    List.replicate 80 '=' ]

/-- `new_expect` of the spawn fixture: run the wrapped expectation
(`old_expect`); on success, pass the result through with nothing sent to
the observability sink; on failure, emit the diagnostic dump to the sink
and re-raise the very same error.  The second component is the list of
lines the call sent to the sink. -/
def new_expect (old_expect : Session → Except ExpectErr Session)
    (fe : FloxEnv) (s : Session) : Except ExpectErr Session × List Str :=
  match old_expect s with
  | .ok s' => (.ok s', [])
  | .error e => (.error e, debugDump s fe)

/-- `send_command` of the spawn fixture: `shell.sendline(cmd)` writes
`cmd` plus the line terminator to the child's input stream, then
`shell.expect_exact(cmd + "\r\n")` blocks until that exact echo appears.
`expect_exact` is the unwrapped method of the handle, so this operation
sends nothing to the observability sink. -/
def send_command (s : Session) (cmd : Str) : Except ExpectErr Session × List Str :=
  let s1 := { s with inputWritten := s.inputWritten ++ cmd ++ lineSep }
  (rawExpectExact s1 (cmd ++ crlf), [])

/-- `expect_prompt` of the spawn fixture: `shell.expect(re.escape(prompt),
timeout)` through the patched `shell.expect`, i.e. `new_expect`.  The
escaped-literal pattern matches exactly the literal prompt text, so the
underlying expectation is the literal search for `defaultPrompt`. -/
def expect_prompt (fe : FloxEnv) (s : Session) : Except ExpectErr Session × List Str :=
  new_expect (fun s => rawExpectExact s defaultPrompt) fe s

/-- The freshly spawned session: empty buffer, no input written yet, with
the child's forthcoming output and end-of-stream flag given. -/
def spawnSession (avail : Str) (closed : Bool) : Session :=
  { buffer := [], avail := avail, closed := closed,
    before := [], after := [], inputWritten := [] }

/-- The command argument of the spawn fixture: a single string, or a list
of argument tokens joined into one string (`" ".join(command)`). -/
def cmdStringOf : Str ⊕ List Str → Str
  | .inl s => s
  | .inr l => pyStrJoin " ".toList l

/-- The body of the spawn fixture's context manager after the handle is
constructed: wait for the prompt (`shell.expect_prompt()`), then send the
command (`shell.send_command(command)`), then yield the session.  The
second component collects everything sent to the observability sink. -/
def openSession (fe : FloxEnv) (commandArg : Str ⊕ List Str)
    (avail : Str) (closed : Bool) : Except ExpectErr Session × List Str :=
  let cmd := cmdStringOf commandArg
  match expect_prompt fe (spawnSession avail closed) with
  | (.ok s1, k1) =>
      let r := send_command s1 cmd
      (r.1, k1 ++ r.2)
  | (.error e, k1) => (.error e, k1)

/-- Modelled from the spec: `shlex.split` (external standard library
tokenizer) splitting a command string into its ordered argument tokens;
the harness's commands carry no quoting, so whitespace separation is the
behavior exercised.  Accumulator-style scan over the characters. -/
def shlexSplitAux : Str → Str → List Str
  | [], acc => if acc = [] then [] else [acc.reverse]
  | c :: t, acc =>
    if c = ' ' then
      if acc = [] then shlexSplitAux t [] else acc.reverse :: shlexSplitAux t []
    else shlexSplitAux t (c :: acc)

/-- Modelled from the spec: `shlex.split` applied to a command string. -/
def shlexSplit (s : Str) : List Str :=
  shlexSplitAux s []

/-- The result record of a completed child process: exit code, captured
standard output, captured standard error. -/
structure CompletedProcess where
  returncode : Int
  stdout : Str
  stderr : Str
deriving DecidableEq, Repr

/-- The exceptions `subprocess.run` can raise that depend on the child's
exit code: `CalledProcessError`, raised only when `check` is set and the
exit code is non-zero. -/
inductive RunError where
  | calledProcessError (returncode : Int)
deriving DecidableEq, Repr

/-- The keyword arguments of the batch runner that the fixture defaults:
`none` means the caller did not supply the argument and the fixture's
`setdefault` value applies. -/
structure RunKwargs where
  capture_output : Option Bool := none
  timeout : Option Nat := none
  check : Option Bool := none
  text : Option Bool := none
  shell : Option Bool := none
deriving DecidableEq, Repr

/-- Modelled from the spec: `subprocess.run` (external standard library),
restricted to the behavior the harness depends on: run the child to
completion, and raise `CalledProcessError` exactly when `check` is set and
the exit code is non-zero; otherwise return the completed-process record.
The child's behavior is the function `exec` from the final argument vector
to its completed-process record. -/
def subprocessRun (argv : List Str) (check : Bool)
    (exec : List Str → CompletedProcess) : Except RunError CompletedProcess :=
  let res := exec argv
  if check ∧ res.returncode ≠ 0 then .error (.calledProcessError res.returncode)
  else .ok res

/-- The final argument vector of the batch runner `_run` (the `run`
fixture): a string is tokenized with `shlex.split`; a sequence is passed
through. -/
def runArgv : Str ⊕ List Str → List Str
  | .inl s => shlexSplit s
  | .inr l => l

/-- `_run` of the `run` fixture: split a string command into arguments,
default `capture_output=True`, `timeout=DEFAULT_TIMEOUT`, `check=False`,
`text=True`, `shell=False`, then call `subprocess.run`. -/
def runFixture (args : Str ⊕ List Str) (kwargs : RunKwargs)
    (exec : List Str → CompletedProcess) : Except RunError CompletedProcess :=
  let check := kwargs.check.getD false
  subprocessRun (runArgv args) check exec

/-- The restricted shell binary: `shell_command = "bash"`. -/
def shell_command : Str := "bash".toList

/-- The startup-file-suppressing flags:
`shell_command_args = ["--norc", "--noprofile"]`. -/
def shell_command_args : List Str :=
  ["--norc".toList, "--noprofile".toList]

/-- The child environment built by the spawn fixture from the parent
process environment: exactly `PS1`, `SHELL`, `PATH`, `USER` and `HOME`,
with the last three copied from the parent (`os.environ[...]`, which
raises `KeyError` — modelled as `none` — when the parent lacks one). -/
def buildEnv (parentEnv : Str → Option Str) : Option (List (Str × Str)) :=
  match parentEnv ("PATH".toList), parentEnv ("USER".toList),
        parentEnv ("HOME".toList) with
  | some path, some user, some home =>
      some [("PS1".toList, defaultPrompt),
            ("SHELL".toList, shell_command),
            ("PATH".toList, path),
            ("USER".toList, user),
            ("HOME".toList, home)]
  | _, _, _ => none

/-- The keyword arguments a caller may pass to the spawn fixture; `none`
means absent, so the fixture's `setdefault` value applies.  The `env`
entry is what a caller supplies as an environment mapping. -/
structure SpawnKwargs where
  encoding : Option Str := none
  env : Option (List (Str × Str)) := none
  timeout : Option Nat := none
  dimensions : Option (Nat × Nat) := none
  cwd : Option Str := none
deriving DecidableEq, Repr

/-- The full configuration handed to the process-spawning facility by the
spawn fixture. -/
structure SpawnConfig where
  command : Str
  args : List Str
  encoding : Str
  env : List (Str × Str)
  timeout : Nat
  dimensions : Nat × Nat
  cwd : Str
deriving DecidableEq, Repr

/-- The spawn fixture's construction of the spawn call: join a token-list
command, build the five-variable child environment (overwriting any
caller-supplied `env` via `kwargs["env"] = env`), default the encoding,
timeout, terminal dimensions and working directory, and spawn
`bash --norc --noprofile`.  Returns the configuration together with the
command string that will later be sent to the shell; `none` models the
`KeyError` when the parent environment lacks `PATH`, `USER` or `HOME`. -/
def mkSpawnConfig (parentEnv : Str → Option Str) (homePath : Str)
    (commandArg : Str ⊕ List Str) (kwargs : SpawnKwargs) :
    Option (SpawnConfig × Str) :=
  let cmd := cmdStringOf commandArg
  (buildEnv parentEnv).map fun env =>
    ({ command := shell_command,
       args := shell_command_args,
       encoding := kwargs.encoding.getD ("utf-8".toList),
       env := env,
       timeout := kwargs.timeout.getD DEFAULT_TIMEOUT,
       dimensions := kwargs.dimensions.getD (24, 10000),
       cwd := kwargs.cwd.getD homePath }, cmd)

/-- First-match association lookup in an environment list. -/
def lookupVar (env : List (Str × Str)) (k : Str) : Option Str :=
  match env with
  | [] => none
  | (k', v) :: rest => if k' = k then some v else lookupVar rest k

/-- `os.path.basename`: the final path component, i.e. everything after
the last slash. -/
def basename : Str → Str
  | [] => []
  | c :: t =>
    if t.contains '/' then basename t
    else if c = '/' then t
    else c :: t

/-- The pinned nixpkgs revision of the `flox_env` fixture. -/
def nixpkgsRev : Str := "e8039594435c68eb4f780f3e9bf3972a7399c4b1".toList

/-- `pathlib.Path.__truediv__` for a relative right operand: the left path
extended with a slash and the relative part. -/
def pathJoin (base rel : Str) : Str :=
  base ++ "/".toList ++ rel

/-- The project descriptor constructed by the `flox_env` fixture:
`name` is the basename of the freshly created project directory,
`run_path` is the project path extended with
`.flox/run/` plus the system identifier, a dot, and the project name,
and `nixpkgs_rev` is the pinned revision. -/
def mkFloxEnv (project_path : Str) (nix_system : Str) : FloxEnv :=
  let project_name := basename project_path
  { name := project_name,
    path := project_path,
    run_path := pathJoin project_path
      (".flox/run/".toList ++ nix_system ++ ".".toList ++ project_name),
    nixpkgs_rev := nixpkgsRev }

/-! Concrete instances used to exercise the definitions. -/

/-- A concrete project descriptor. -/
def feEx : FloxEnv :=
  mkFloxEnv ("/home/t/proj".toList) ("x86_64-linux".toList)

/-- An underlying expectation that fails with a timeout. -/
def rawFail : Session → Except ExpectErr Session :=
  fun _ => .error .timeout

/-- A freshly spawned session whose child never produces output. -/
def sIdle : Session := spawnSession [] false

/-- A concrete command string. -/
def lsCmd : Str := "ls".toList

/-- A session whose unconsumed buffer holds two occurrences of the prompt
and whose child produces no further output. -/
def sTwoPrompts : Session :=
  { sIdle with buffer := "$ $ ".toList }

/-- `sTwoPrompts` after one successful prompt expectation. -/
def sTwoPrompts1 : Session :=
  { buffer := "$ ".toList, avail := [], closed := false,
    before := [], after := defaultPrompt, inputWritten := [] }

/-- `sTwoPrompts1` after a second successful prompt expectation. -/
def sTwoPrompts2 : Session :=
  { buffer := [], avail := [], closed := false,
    before := [], after := defaultPrompt, inputWritten := [] }

/-- A session whose unconsumed buffer holds exactly one prompt. -/
def sOnePrompt : Session :=
  { sIdle with buffer := defaultPrompt }

/-- `sOnePrompt` after one successful prompt expectation. -/
def sOnePromptAfter : Session :=
  { buffer := [], avail := [], closed := false,
    before := [], after := defaultPrompt, inputWritten := [] }

/-- A session whose child will echo `ls`, print a line of output and a new
prompt. -/
def sEcho : Session := spawnSession ("ls\r\nout\r\n$ ".toList) false

/-- `sEcho` after a successful `send_command` of `lsCmd`. -/
def sEchoAfter : Session :=
  { buffer := "out\r\n$ ".toList, avail := [], closed := false,
    before := [], after := "ls\r\n".toList, inputWritten := "ls\n".toList }

/-- A child behavior exiting non-zero with captured output. -/
def execEx : List Str → CompletedProcess :=
  fun _ => { returncode := 2, stdout := "out".toList, stderr := "err".toList }

/-- A concrete parent process environment. -/
def parentEnvEx : Str → Option Str :=
  fun k =>
    if k = "PATH".toList then some ("/usr/bin".toList)
    else if k = "USER".toList then some ("t".toList)
    else if k = "HOME".toList then some ("/home/t".toList)
    else none

/-- A second parent environment agreeing with `parentEnvEx` on `PATH`,
`USER` and `HOME` but holding an extra variable. -/
def parentEnvEx2 : Str → Option Str :=
  fun k =>
    if k = "SECRET".toList then some ("hunter2".toList)
    else parentEnvEx k

/-- The child environment built from `parentEnvEx`. -/
def envEx : List (Str × Str) :=
  [("PS1".toList, defaultPrompt),
   ("SHELL".toList, shell_command),
   ("PATH".toList, "/usr/bin".toList),
   ("USER".toList, "t".toList),
   ("HOME".toList, "/home/t".toList)]

/-- A concrete home directory path. -/
def homeEx : Str := "/home/t".toList

/-- The spawn configuration built from `parentEnvEx` with no caller
keyword arguments. -/
def cfgEx : SpawnConfig :=
  { command := shell_command,
    args := shell_command_args,
    encoding := "utf-8".toList,
    env := envEx,
    timeout := DEFAULT_TIMEOUT,
    dimensions := (24, 10000),
    cwd := homeEx }

/-- A concrete token list for the join operation. -/
def toksEx : List Str :=
  ["flox".toList, "activate".toList]

/-- The session yielded by `openSession` on the `sEcho`-like child that
prints a prompt and then echoes `ls`. -/
def c10S : Session :=
  { buffer := [], avail := [], closed := false,
    before := [], after := "ls\r\n".toList, inputWritten := "ls\n".toList }

/-! Helper lemmas shared by the claim theorems. -/

/-- Successful literal expectation: characterization of the match index
and the resulting session. -/
theorem rawExpectExact_ok {s s' : Session} {needle : Str}
    (h : rawExpectExact s needle = .ok s') :
    ∃ i, findSub needle (s.buffer ++ s.avail) = some i ∧
      s' = { s with
               buffer := (s.buffer ++ s.avail).drop (i + needle.length),
               avail := [],
               before := (s.buffer ++ s.avail).take i,
               after := needle } := by
  unfold rawExpectExact at h
  cases hf : findSub needle (s.buffer ++ s.avail) with
  | none => simp [hf] at h
  | some i =>
      refine ⟨i, rfl, ?_⟩
      simp [hf] at h
      exact h.symm

/-- Failing literal expectation: no occurrence of the needle in the
stream, and the error is end-of-file exactly when the stream closed. -/
theorem rawExpectExact_error {s : Session} {needle : Str}
    (h : findSub needle (s.buffer ++ s.avail) = none) :
    rawExpectExact s needle = .error (if s.closed then .eof else .timeout) := by
  unfold rawExpectExact
  simp [h]

/-- `new_expect` unfolded as a match on the wrapped expectation. -/
theorem new_expect_eq (raw : Session → Except ExpectErr Session)
    (fe : FloxEnv) (s : Session) :
    new_expect raw fe s =
      match raw s with
      | .ok s' => (.ok s', [])
      | .error e => (.error e, debugDump s fe) := rfl

/-- A failing wrapped expectation forces the underlying one to fail with
the same error. -/
theorem new_expect_error {raw : Session → Except ExpectErr Session}
    {fe : FloxEnv} {s : Session} {e : ExpectErr}
    (h : (new_expect raw fe s).1 = .error e) :
    raw s = .error e ∧ (new_expect raw fe s).2 = debugDump s fe := by
  rw [new_expect_eq] at h ⊢
  cases hr : raw s with
  | ok s' => rw [hr] at h; exact absurd h (by simp)
  | error e' => rw [hr] at h; simp at h; simp [h]

/-- A successful wrapped expectation forces the underlying one to succeed
with the same session and sends nothing to the sink. -/
theorem new_expect_ok {raw : Session → Except ExpectErr Session}
    {fe : FloxEnv} {s s' : Session}
    (h : (new_expect raw fe s).1 = .ok s') :
    raw s = .ok s' ∧ (new_expect raw fe s).2 = [] := by
  rw [new_expect_eq] at h ⊢
  cases hr : raw s with
  | ok s'' => rw [hr] at h; simp at h; simp [h]
  | error e => rw [hr] at h; exact absurd h (by simp)

/-- A failing wrapped expectation, as the full result pair. -/
theorem new_expect_error_pair {raw : Session → Except ExpectErr Session}
    {fe : FloxEnv} {s : Session} {e : ExpectErr}
    (h : (new_expect raw fe s).1 = .error e) :
    new_expect raw fe s = (.error e, debugDump s fe) := by
  have d := new_expect_error h
  rw [new_expect_eq, d.1]

/-- A failing prompt expectation, as the full result pair. -/
theorem expect_prompt_error_pair {fe : FloxEnv} {s : Session} {e : ExpectErr}
    (h : (expect_prompt fe s).1 = .error e) :
    expect_prompt fe s = (.error e, debugDump s fe) := by
  have d := new_expect_error
    (show (new_expect (fun s => rawExpectExact s defaultPrompt) fe s).1 =
      .error e from h)
  have d1 : rawExpectExact s defaultPrompt = Except.error e := d.1
  show new_expect (fun s => rawExpectExact s defaultPrompt) fe s = _
  rw [new_expect_eq, d1]

/-- The diagnostic dump is never empty. -/
theorem debugDump_ne_nil (s : Session) (fe : FloxEnv) :
    debugDump s fe ≠ [] := by
  simp [debugDump]

/-! Claim theorems. -/

/-- C1: whenever a call through the driver's wrapped generic expectation
fails (timeout or stream-closed), the driver first emits the diagnostic
dump to the observability sink — the dump holds the indented session
rendering, which contains the session's buffered transcript (`before` and
`buffer`), and the project-descriptor rendering, which contains the
working path, the run path and the pinned revision — and then re-raises
the very same error; the failure is never swallowed, altered or
retried. -/
theorem c1_dump_then_rethrow (raw : Session → Except ExpectErr Session)
    (fe : FloxEnv) (s : Session) (e : ExpectErr)
    (h : raw s = .error e) :
    new_expect raw fe s = (.error e, debugDump s fe) ∧
    pyIndent (strShell s) ∈ debugDump s fe ∧
    strFloxEnv fe ∈ debugDump s fe ∧
    s.buffer <:+: strShell s ∧
    s.before <:+: strShell s ∧
    fe.path <:+: strFloxEnv fe ∧
    fe.run_path <:+: strFloxEnv fe ∧
    fe.nixpkgs_rev <:+: strFloxEnv fe := by
  refine ⟨?_, ?_, ?_, ?_, ?_, ?_, ?_, ?_⟩
  · rw [new_expect_eq, h]
  · simp [debugDump]
  · simp [debugDump]
  · exact ⟨"before: ".toList ++ s.before ++ "\n".toList ++ "buffer: ".toList,
      "\n".toList ++ "after: ".toList ++ s.after,
      by simp [strShell, List.append_assoc]⟩
  · exact ⟨"before: ".toList,
      "\n".toList ++ "buffer: ".toList ++ s.buffer ++ "\n".toList ++
        "after: ".toList ++ s.after,
      by simp [strShell, List.append_assoc]⟩
  · exact ⟨"FLOX ENVIRONMENT:\n".toList ++ "  name: ".toList ++ fe.name ++
        "\n".toList ++ "  path: ".toList,
      "\n".toList ++ "  run_path: ".toList ++ fe.run_path ++ "\n".toList ++
        "  nixpkgs_rev: ".toList ++ fe.nixpkgs_rev ++ "\n".toList,
      by simp [strFloxEnv, List.append_assoc]⟩
  · exact ⟨"FLOX ENVIRONMENT:\n".toList ++ "  name: ".toList ++ fe.name ++
        "\n".toList ++ "  path: ".toList ++ fe.path ++ "\n".toList ++
        "  run_path: ".toList,
      "\n".toList ++ "  nixpkgs_rev: ".toList ++ fe.nixpkgs_rev ++ "\n".toList,
      by simp [strFloxEnv, List.append_assoc]⟩
  · exact ⟨"FLOX ENVIRONMENT:\n".toList ++ "  name: ".toList ++ fe.name ++
        "\n".toList ++ "  path: ".toList ++ fe.path ++ "\n".toList ++
        "  run_path: ".toList ++ fe.run_path ++ "\n".toList ++
        "  nixpkgs_rev: ".toList,
      "\n".toList,
      by simp [strFloxEnv, List.append_assoc]⟩

/-- C1 witness: the dump-then-rethrow behavior at a concrete failing
expectation on a concrete session and descriptor. -/
theorem c1_witness :
    rawFail sIdle = .error .timeout ∧
    (new_expect rawFail feEx sIdle = (.error .timeout, debugDump sIdle feEx) ∧
     pyIndent (strShell sIdle) ∈ debugDump sIdle feEx ∧
     strFloxEnv feEx ∈ debugDump sIdle feEx ∧
     sIdle.buffer <:+: strShell sIdle ∧
     sIdle.before <:+: strShell sIdle ∧
     feEx.path <:+: strFloxEnv feEx ∧
     feEx.run_path <:+: strFloxEnv feEx ∧
     feEx.nixpkgs_rev <:+: strFloxEnv feEx) :=
  ⟨rfl, c1_dump_then_rethrow rawFail feEx sIdle .timeout rfl⟩

/-- C2 counterexample: the echo wait inside `send_command` is an
expectation operation of the driver, and on a concrete idle session it
fails with a timeout while the diagnostic sink receives nothing — the
claim that every failing expectation is preceded by a non-empty transcript
dump is false.  (`send_command` calls the handle's unwrapped exact-match
method, not the patched `expect`.) -/
theorem c2_counterexample :
    (send_command sIdle lsCmd).1 = .error .timeout ∧
    (send_command sIdle lsCmd).2 = ([] : List Str) := by
  exact ⟨by decide, rfl⟩

/-- C2 (amended): a failing wrapped generic expectation, a failing
`expect_prompt`, and a failing initial readiness wait at session open each
deliver the (non-empty) diagnostic dump to the sink before the error
propagates; the echo wait inside `send_command`, by contrast, sends
nothing to the sink. -/
theorem c2_dump_coverage (fe : FloxEnv)
    (raw : Session → Except ExpectErr Session)
    (s s2 s3 : Session) (cmd : Str) (commandArg : Str ⊕ List Str)
    (avail : Str) (closed : Bool) (e1 e2 e3 : ExpectErr)
    (h1 : (new_expect raw fe s).1 = .error e1)
    (h2 : (expect_prompt fe s2).1 = .error e2)
    (h3 : (expect_prompt fe (spawnSession avail closed)).1 = .error e3) :
    (new_expect raw fe s).2 = debugDump s fe ∧
    (new_expect raw fe s).2 ≠ [] ∧
    (expect_prompt fe s2).2 = debugDump s2 fe ∧
    (expect_prompt fe s2).2 ≠ [] ∧
    (openSession fe commandArg avail closed).2 =
      debugDump (spawnSession avail closed) fe ∧
    (openSession fe commandArg avail closed).2 ≠ [] ∧
    (send_command s3 cmd).2 = ([] : List Str) := by
  have d1 := new_expect_error h1
  have p2 := expect_prompt_error_pair h2
  have p3 := expect_prompt_error_pair h3
  have hopen : (openSession fe commandArg avail closed).2 =
      debugDump (spawnSession avail closed) fe := by
    unfold openSession
    rw [p3]
  refine ⟨d1.2, ?_, ?_, ?_, hopen, ?_, rfl⟩
  · rw [d1.2]; exact debugDump_ne_nil s fe
  · rw [p2]
  · rw [p2]; exact debugDump_ne_nil s2 fe
  · rw [hopen]; exact debugDump_ne_nil (spawnSession avail closed) fe

/-- C2 witness: the amended dump coverage at a concrete descriptor,
session and command. -/
theorem c2_witness :
    (new_expect rawFail feEx sIdle).1 = .error .timeout ∧
    ((new_expect rawFail feEx sIdle).2 = debugDump sIdle feEx ∧
     (new_expect rawFail feEx sIdle).2 ≠ [] ∧
     (expect_prompt feEx sIdle).2 = debugDump sIdle feEx ∧
     (expect_prompt feEx sIdle).2 ≠ [] ∧
     (openSession feEx (Sum.inl lsCmd) [] false).2 =
       debugDump (spawnSession [] false) feEx ∧
     (openSession feEx (Sum.inl lsCmd) [] false).2 ≠ [] ∧
     (send_command sIdle lsCmd).2 = ([] : List Str)) :=
  ⟨rfl, c2_dump_coverage feEx rawFail sIdle sIdle sIdle lsCmd (Sum.inl lsCmd)
    [] false .timeout .timeout .timeout rfl rfl rfl⟩

/-- C3: `send_command` writes exactly the command text followed by the
line terminator to the child's input stream and blocks until the exact
substring of the text followed by `"\r\n"` appears in the output stream
(literal substring search, not a pattern), returning only after that echo
is consumed: on success the echo occurrence has been consumed from the
stream, and when the echo never appears the call fails instead of
returning. -/
theorem c3_send_command (s : Session) (cmd : Str) :
    (∀ s', (send_command s cmd).1 = .ok s' →
      s'.inputWritten = s.inputWritten ++ cmd ++ lineSep ∧
      s'.after = cmd ++ crlf ∧
      ∃ i, findSub (cmd ++ crlf) (s.buffer ++ s.avail) = some i ∧
        s'.before = (s.buffer ++ s.avail).take i ∧
        s'.buffer = (s.buffer ++ s.avail).drop (i + (cmd ++ crlf).length)) ∧
    (findSub (cmd ++ crlf) (s.buffer ++ s.avail) = none →
      (send_command s cmd).1 = .error (if s.closed then .eof else .timeout)) := by
  constructor
  · intro s' h
    have hok : rawExpectExact
        { s with inputWritten := s.inputWritten ++ cmd ++ lineSep }
        (cmd ++ crlf) = .ok s' := h
    obtain ⟨i, hi, hs'⟩ := rawExpectExact_ok hok
    refine ⟨by rw [hs'], by rw [hs'], i, hi, by rw [hs'], by rw [hs']⟩
  · intro hnone
    exact rawExpectExact_error hnone

/-- C3 witness: a concrete session whose child echoes the command; the
echo is consumed and the write transcript extended. -/
theorem c3_witness :
    (send_command sEcho lsCmd).1 = .ok sEchoAfter ∧
    (sEchoAfter.inputWritten = sEcho.inputWritten ++ lsCmd ++ lineSep ∧
     sEchoAfter.after = lsCmd ++ crlf ∧
     ∃ i, findSub (lsCmd ++ crlf) (sEcho.buffer ++ sEcho.avail) = some i ∧
       sEchoAfter.before = (sEcho.buffer ++ sEcho.avail).take i ∧
       sEchoAfter.buffer =
         (sEcho.buffer ++ sEcho.avail).drop (i + (lsCmd ++ crlf).length)) :=
  ⟨by decide, (c3_send_command sEcho lsCmd).1 sEchoAfter (by decide)⟩

/-- C4 counterexample: a session whose child produces no further output
(`avail = []`, stream open) but whose unconsumed buffer holds two
occurrences of the prompt; two `expect_prompt` calls in direct succession
both succeed, so the second does not fail with `TimeoutError` as the claim
requires for every such session. -/
theorem c4_counterexample :
    sTwoPrompts.avail = [] ∧ sTwoPrompts.closed = false ∧
    (expect_prompt feEx sTwoPrompts).1 = .ok sTwoPrompts1 ∧
    sTwoPrompts1.avail = [] ∧ sTwoPrompts1.closed = false ∧
    (expect_prompt feEx sTwoPrompts1).1 = .ok sTwoPrompts2 := by
  refine ⟨rfl, rfl, by decide, rfl, rfl, by decide⟩

/-- C4 (amended): a successful `expect_prompt` consumes the stream up to
and including the matched prompt and never looks behind the match
position; with no further output from the child, a second `expect_prompt`
in direct succession fails with `TimeoutError` provided the unconsumed
remainder left by the first call contains no further occurrence of the
prompt. -/
theorem c4_prompt_consumed (fe : FloxEnv) (s s1 : Session)
    (havail : s.avail = []) (hopen : s.closed = false)
    (h : (expect_prompt fe s).1 = .ok s1) :
    (∃ i, findSub defaultPrompt s.buffer = some i ∧
      s1.buffer = s.buffer.drop (i + defaultPrompt.length) ∧
      s1.avail = [] ∧ s1.closed = false) ∧
    (findSub defaultPrompt s1.buffer = none →
      (expect_prompt fe s1).1 = .error .timeout) := by
  have hraw : rawExpectExact s defaultPrompt = .ok s1 := (new_expect_ok h).1
  obtain ⟨i, hi, hs1⟩ := rawExpectExact_ok hraw
  rw [havail, List.append_nil] at hi hs1
  have ha1 : s1.avail = [] := by rw [hs1]
  have hc1 : s1.closed = false := by rw [hs1]; exact hopen
  refine ⟨⟨i, hi, by rw [hs1], ha1, hc1⟩, ?_⟩
  intro hnone
  have hnone' : findSub defaultPrompt (s1.buffer ++ s1.avail) = none := by
    rw [ha1, List.append_nil]; exact hnone
  have herr := rawExpectExact_error hnone'
  rw [hc1] at herr
  simp at herr
  show (new_expect (fun s => rawExpectExact s defaultPrompt) fe s1).1 =
    .error .timeout
  rw [new_expect_eq, herr]

/-- C4 witness: a concrete session holding exactly one prompt in the
buffer and producing no further output; the first call consumes it and the
second call fails with a timeout. -/
theorem c4_witness :
    sOnePrompt.avail = [] ∧ sOnePrompt.closed = false ∧
    (expect_prompt feEx sOnePrompt).1 = .ok sOnePromptAfter ∧
    ((∃ i, findSub defaultPrompt sOnePrompt.buffer = some i ∧
       sOnePromptAfter.buffer =
         sOnePrompt.buffer.drop (i + defaultPrompt.length) ∧
       sOnePromptAfter.avail = [] ∧ sOnePromptAfter.closed = false) ∧
     (findSub defaultPrompt sOnePromptAfter.buffer = none →
       (expect_prompt feEx sOnePromptAfter).1 = .error .timeout)) ∧
    (expect_prompt feEx sOnePromptAfter).1 = .error .timeout :=
  ⟨rfl, rfl, by decide,
   c4_prompt_consumed feEx sOnePrompt sOnePromptAfter rfl rfl (by decide),
   (c4_prompt_consumed feEx sOnePrompt sOnePromptAfter rfl rfl (by decide)).2
     (by decide)⟩

/-- C5: for every command (string or argument sequence) and every child
behavior — in particular every exit code — the batch runner with the
caller not overriding `check` returns the completed-process record
carrying the exit code and the captured standard output and standard
error, and never raises. -/
theorem c5_batch_runner (args : Str ⊕ List Str) (kwargs : RunKwargs)
    (exec : List Str → CompletedProcess)
    (hcheck : kwargs.check = none) :
    runFixture args kwargs exec = .ok (exec (runArgv args)) ∧
    (runFixture args kwargs exec).isOk = true ∧
    ∀ err, runFixture args kwargs exec ≠ .error err := by
  have hrun : runFixture args kwargs exec = .ok (exec (runArgv args)) := by
    unfold runFixture subprocessRun
    rw [hcheck]
    simp [Option.getD]
  exact ⟨hrun, by rw [hrun]; rfl, fun err => by rw [hrun]; simp⟩

/-- C5 witness: a concrete command whose child exits with the non-zero
code 2; the runner returns the record rather than raising. -/
theorem c5_witness :
    (RunKwargs.mk none none none none none).check = none ∧
    (runFixture (Sum.inl lsCmd) (RunKwargs.mk none none none none none)
        execEx =
      .ok (execEx (runArgv (Sum.inl lsCmd))) ∧
     (runFixture (Sum.inl lsCmd) (RunKwargs.mk none none none none none)
        execEx).isOk = true ∧
     ∀ err, runFixture (Sum.inl lsCmd) (RunKwargs.mk none none none none none)
        execEx ≠ .error err) :=
  ⟨rfl, c5_batch_runner (Sum.inl lsCmd) (RunKwargs.mk none none none none none)
    execEx rfl⟩

/-- The spec's description of the join: the tokens, in order, separated by
exactly one single-space character between consecutive tokens, with no
quoting or escaping applied. -/
def joinedWithSingleSpaces : List Str → Str
  | [] => []
  | [x] => x
  | x :: y :: rest => x ++ ' ' :: joinedWithSingleSpaces (y :: rest)

/-- C6: when the spawn operation receives a sequence of argument tokens,
the command string it builds is the tokens joined with exactly one
single-space separator between consecutive tokens, and every token appears
verbatim (unquoted, unescaped) inside the result. -/
theorem c6_join_single_spaces (toks : List Str) :
    cmdStringOf (Sum.inr toks) = joinedWithSingleSpaces toks ∧
    ∀ t ∈ toks, t <:+: cmdStringOf (Sum.inr toks) := by
  induction toks with
  | nil => exact ⟨rfl, by intro t ht; cases ht⟩
  | cons x xs ih =>
      cases xs with
      | nil =>
          refine ⟨rfl, ?_⟩
          intro t ht
          rw [List.mem_singleton] at ht
          subst ht
          exact ⟨[], [], by simp [cmdStringOf, pyStrJoin]⟩
      | cons y rest =>
          have ihh : pyStrJoin [' '] (y :: rest) =
              joinedWithSingleSpaces (y :: rest) := ih.1
          constructor
          · show pyStrJoin (" ".toList) (x :: y :: rest) =
              joinedWithSingleSpaces (x :: y :: rest)
            simp [cmdStringOf, pyStrJoin, joinedWithSingleSpaces, ihh,
              List.append_assoc]
          · intro t ht
            have hsub : pyStrJoin (" ".toList) (y :: rest) <:+:
                pyStrJoin (" ".toList) (x :: y :: rest) := by
              refine ⟨x ++ " ".toList, [], ?_⟩
              simp [pyStrJoin, List.append_assoc]
            rcases List.mem_cons.mp ht with hx | hxs
            · subst hx
              refine ⟨[], " ".toList ++ pyStrJoin (" ".toList) (y :: rest), ?_⟩
              simp [cmdStringOf, pyStrJoin, List.append_assoc]
            · exact List.IsInfix.trans (ih.2 t hxs) hsub

/-- C6 witness: the join at a concrete token list, with the first token
appearing verbatim in the result. -/
theorem c6_witness :
    cmdStringOf (Sum.inr toksEx) = joinedWithSingleSpaces toksEx ∧
    "flox".toList <:+: cmdStringOf (Sum.inr toksEx) :=
  ⟨(c6_join_single_spaces toksEx).1,
   (c6_join_single_spaces toksEx).2 ("flox".toList) (by decide)⟩

/-- Characterization of a successfully built child environment: the
parent must hold `PATH`, `USER` and `HOME`, and the environment is the
five-entry list in order. -/
theorem buildEnv_some {p : Str → Option Str} {env : List (Str × Str)}
    (h : buildEnv p = some env) :
    ∃ path user home,
      p ("PATH".toList) = some path ∧
      p ("USER".toList) = some user ∧
      p ("HOME".toList) = some home ∧
      env = [("PS1".toList, defaultPrompt),
             ("SHELL".toList, shell_command),
             ("PATH".toList, path),
             ("USER".toList, user),
             ("HOME".toList, home)] := by
  unfold buildEnv at h
  cases hp : p ("PATH".toList) with
  | none => rw [hp] at h; simp at h
  | some path =>
      cases hu : p ("USER".toList) with
      | none => rw [hp, hu] at h; simp at h
      | some user =>
          cases hh : p ("HOME".toList) with
          | none => rw [hp, hu, hh] at h; simp at h
          | some home =>
              rw [hp, hu, hh] at h
              simp at h
              exact ⟨path, user, home, rfl, rfl, rfl, h.symm⟩

/-- C7: every successful session spawn launches the restricted shell
`bash` with the startup-file-suppressing flags `--norc --noprofile`, and
its environment maps the prompt variable `PS1` to the configured prompt
`"$ "` and the shell-selector variable `SHELL` to the restricted shell. -/
theorem c7_spawn_config (parentEnv : Str → Option Str) (homePath : Str)
    (commandArg : Str ⊕ List Str) (kwargs : SpawnKwargs)
    (cfg : SpawnConfig) (cmd : Str)
    (h : mkSpawnConfig parentEnv homePath commandArg kwargs =
      some (cfg, cmd)) :
    cfg.command = "bash".toList ∧
    cfg.args = ["--norc".toList, "--noprofile".toList] ∧
    lookupVar cfg.env ("PS1".toList) = some ("$ ".toList) ∧
    lookupVar cfg.env ("SHELL".toList) = some ("bash".toList) := by
  unfold mkSpawnConfig at h
  cases hb : buildEnv parentEnv with
  | none => rw [hb] at h; simp at h
  | some env =>
      rw [hb] at h
      simp [Option.map] at h
      obtain ⟨path, user, home, _, _, _, henv⟩ := buildEnv_some hb
      obtain ⟨hcfg, _⟩ := h
      rw [← hcfg]
      subst henv
      exact ⟨rfl, rfl, rfl, rfl⟩

/-- C7 witness: the spawn configuration built from a concrete parent
environment. -/
theorem c7_witness :
    mkSpawnConfig parentEnvEx homeEx (Sum.inl lsCmd)
        (SpawnKwargs.mk none none none none none) =
      some (cfgEx, lsCmd) ∧
    (cfgEx.command = "bash".toList ∧
     cfgEx.args = ["--norc".toList, "--noprofile".toList] ∧
     lookupVar cfgEx.env ("PS1".toList) = some ("$ ".toList) ∧
     lookupVar cfgEx.env ("SHELL".toList) = some ("bash".toList)) :=
  ⟨by decide,
   c7_spawn_config parentEnvEx homeEx (Sum.inl lsCmd)
     (SpawnKwargs.mk none none none none none) cfgEx lsCmd (by decide)⟩

/-- C8: the project descriptor keeps the project root path, derives its
name as the basename of that path, pins the upstream revision, and derives
the run path as the root path extended by `.flox/run/` followed by the
system identifier, a dot, and the project name. -/
theorem c8_run_path (project_path nix_system : Str) :
    (mkFloxEnv project_path nix_system).path = project_path ∧
    (mkFloxEnv project_path nix_system).name = basename project_path ∧
    (mkFloxEnv project_path nix_system).nixpkgs_rev = nixpkgsRev ∧
    (mkFloxEnv project_path nix_system).run_path =
      project_path ++ "/.flox/run/".toList ++ nix_system ++ ".".toList ++
        basename project_path := by
  have h1 : ("/.flox/run/".toList : Str) = '/' :: ".flox/run/".toList := rfl
  have h2 : ("/".toList : Str) = ['/'] := rfl
  have h3 : (".".toList : Str) = ['.'] := rfl
  refine ⟨rfl, rfl, rfl, ?_⟩
  simp [mkFloxEnv, pathJoin, h1, h2, h3, List.append_assoc]

/-- C9: the spawned shell's environment holds exactly the five variables
`PS1`, `SHELL`, `PATH`, `USER`, `HOME` in that order, with the last three
copied from the parent process; any caller-supplied environment mapping is
ignored (overwritten); and any two parent environments agreeing on `PATH`,
`USER` and `HOME` produce the identical child environment, so the child
observes no other parent variable. -/
theorem c9_env_exact (parentEnv parentEnv2 : Str → Option Str)
    (homePath : Str) (commandArg : Str ⊕ List Str) (kwargs : SpawnKwargs)
    (env : List (Str × Str))
    (h : buildEnv parentEnv = some env)
    (hPATH : parentEnv2 ("PATH".toList) = parentEnv ("PATH".toList))
    (hUSER : parentEnv2 ("USER".toList) = parentEnv ("USER".toList))
    (hHOME : parentEnv2 ("HOME".toList) = parentEnv ("HOME".toList)) :
    env.map Prod.fst =
      ["PS1".toList, "SHELL".toList, "PATH".toList,
       "USER".toList, "HOME".toList] ∧
    lookupVar env ("PATH".toList) = parentEnv ("PATH".toList) ∧
    lookupVar env ("USER".toList) = parentEnv ("USER".toList) ∧
    lookupVar env ("HOME".toList) = parentEnv ("HOME".toList) ∧
    buildEnv parentEnv2 = buildEnv parentEnv ∧
    (∀ callerEnv : Option (List (Str × Str)),
      mkSpawnConfig parentEnv homePath commandArg
        { kwargs with env := callerEnv } =
      mkSpawnConfig parentEnv homePath commandArg kwargs) := by
  obtain ⟨path, user, home, hp, hu, hh, henv⟩ := buildEnv_some h
  subst henv
  refine ⟨rfl, ?_, ?_, ?_, ?_, fun callerEnv => rfl⟩
  · show some path = parentEnv ("PATH".toList)
    exact hp.symm
  · show some user = parentEnv ("USER".toList)
    exact hu.symm
  · show some home = parentEnv ("HOME".toList)
    exact hh.symm
  · unfold buildEnv
    rw [hPATH, hUSER, hHOME]

/-- C9 witness: two concrete parent environments, the second holding an
extra secret variable; the built child environments coincide and expose
exactly the five variables. -/
theorem c9_witness :
    buildEnv parentEnvEx = some envEx ∧
    parentEnvEx2 ("PATH".toList) = parentEnvEx ("PATH".toList) ∧
    parentEnvEx2 ("SECRET".toList) ≠ parentEnvEx ("SECRET".toList) ∧
    (envEx.map Prod.fst =
       ["PS1".toList, "SHELL".toList, "PATH".toList,
        "USER".toList, "HOME".toList] ∧
     lookupVar envEx ("PATH".toList) = parentEnvEx ("PATH".toList) ∧
     lookupVar envEx ("USER".toList) = parentEnvEx ("USER".toList) ∧
     lookupVar envEx ("HOME".toList) = parentEnvEx ("HOME".toList) ∧
     buildEnv parentEnvEx2 = buildEnv parentEnvEx ∧
     (∀ callerEnv : Option (List (Str × Str)),
       mkSpawnConfig parentEnvEx homeEx (Sum.inl lsCmd)
         { SpawnKwargs.mk none none none none none with env := callerEnv } =
       mkSpawnConfig parentEnvEx homeEx (Sum.inl lsCmd)
         (SpawnKwargs.mk none none none none none))) :=
  ⟨by decide, by decide, by decide,
   c9_env_exact parentEnvEx parentEnvEx2 homeEx (Sum.inl lsCmd)
     (SpawnKwargs.mk none none none none none) envEx
     (by decide) (by decide) (by decide) (by decide)⟩

/-- C10: a session yielded to the caller has had more than readiness
established: after the initial prompt was observed, the supplied command
line was sent through `send_command` — its text plus the line terminator
written to the child and its echo consumed — before the session was
yielded, with nothing sent to the diagnostic sink. -/
theorem c10_command_submitted (fe : FloxEnv) (commandArg : Str ⊕ List Str)
    (avail : Str) (closed : Bool) (s : Session) (sink : List Str)
    (h : openSession fe commandArg avail closed = (.ok s, sink)) :
    sink = [] ∧
    ∃ s1, expect_prompt fe (spawnSession avail closed) = (.ok s1, []) ∧
      (send_command s1 (cmdStringOf commandArg)).1 = .ok s ∧
      s.inputWritten = cmdStringOf commandArg ++ lineSep ∧
      s.after = cmdStringOf commandArg ++ crlf := by
  unfold openSession at h
  rcases hp : expect_prompt fe (spawnSession avail closed) with ⟨r, k⟩
  rw [hp] at h
  cases r with
  | error e => simp at h
  | ok s1 =>
      have h1 : (expect_prompt fe (spawnSession avail closed)).1 = .ok s1 := by
        rw [hp]
      have h2 := new_expect_ok
        (show (new_expect (fun s => rawExpectExact s defaultPrompt) fe
          (spawnSession avail closed)).1 = .ok s1 from h1)
      have hk : (expect_prompt fe (spawnSession avail closed)).2 = [] := h2.2
      rw [hp] at hk
      subst hk
      simp [send_command] at h
      obtain ⟨hfst, hsnd⟩ := h
      rw [← List.append_assoc] at hfst
      have hraw1 : rawExpectExact (spawnSession avail closed) defaultPrompt =
          .ok s1 := h2.1
      obtain ⟨i, hi, hs1⟩ := rawExpectExact_ok hraw1
      have hin1 : s1.inputWritten = [] := by rw [hs1]; rfl
      have hsend : (send_command s1 (cmdStringOf commandArg)).1 = .ok s := hfst
      obtain ⟨j, hj, hs⟩ := rawExpectExact_ok hfst
      refine ⟨hsnd, s1, rfl, hsend, ?_, ?_⟩
      · rw [hs]
        show s1.inputWritten ++ cmdStringOf commandArg ++ lineSep = _
        rw [hin1]
        simp
      · rw [hs]

/-- C10 witness: opening a session on a child that prints a prompt and
echoes the command yields a session with the command written and its echo
consumed, and an empty sink. -/
theorem c10_witness :
    openSession feEx (Sum.inl lsCmd) ("$ ls\r\n".toList) false =
      (.ok c10S, []) ∧
    (([] : List Str) = [] ∧
     ∃ s1, expect_prompt feEx (spawnSession ("$ ls\r\n".toList) false) =
         (.ok s1, []) ∧
       (send_command s1 (cmdStringOf (Sum.inl lsCmd))).1 = .ok c10S ∧
       c10S.inputWritten = cmdStringOf (Sum.inl lsCmd) ++ lineSep ∧
       c10S.after = cmdStringOf (Sum.inl lsCmd) ++ crlf) :=
  ⟨by decide,
   c10_command_submitted feEx (Sum.inl lsCmd) ("$ ls\r\n".toList) false c10S []
     (by decide)⟩

end FloxHarness
